import Mathlib

/-!
Shallow embedding of `src/dwarfs/error.cpp` (dwarfs error-handling core).

The C++ file defines the constructors of `dwarfs::system_error`, the
diagnostic helpers `dump_exceptions`, `handle_nothrow` and
`assertion_failed`, and the top-level harness `safe_main`.

Modelling decisions:
* the diagnostic stream (`std::cerr`) is a `List String`, one element per
  output line (each C++ statement ends its output with a single `\n`);
* the ambient last-error value (`errno`) is passed explicitly to the
  constructors that read it;
* a propagating C++ exception is a value of the inductive `Exc`; C++
  `catch` dispatch (most specific first) becomes a `match` on `Exc`;
* fallible computations live in `Except Exc`; a `noexcept` body that
  performs no throwing operation is a chain of `pure`s;
* the preprocessor flag `DWARFS_USE_EXCEPTION_TRACER` and the platform
  flag `_WIN32` become explicit booleans;
* behaviour of the external collaborators (`folly::exceptionStr`, the
  generic error category's message rendering, locale and terminal setup)
  is modelled by explicit parameters or simple concrete functions, since
  those live outside this repository.
-/

namespace Dwarfs

/-- The `dwarfs::system_error` data: optional message, OS error code of the
generic category, and origin file/line. Mirrors the fields initialised by
the constructors in `error.cpp` lines 39-55. -/
structure system_error where
  msg : Option String
  code : Int
  file : String
  line : Int
deriving DecidableEq

/-- Modelled from the spec: `dwarfs::error` is declared in `dwarfs/error.h`
(not under `src/`); per the spec it is the generic application failure
carrying a message and an origin location, exposed to `safe_main` through
`what()`, `file()` and `line()`. -/
structure error where
  msg : String
  file : String
  line : Int
deriving DecidableEq

/-- Constructor `system_error(std::string const& s, int err, char const* file, int line)`
(error.cpp lines 46-50): stores the supplied code and message. -/
def system_error.ofMsgErrFileLine (s : String) (err : Int) (file : String)
    (line : Int) : system_error :=
  ⟨some s, err, file, line⟩

/-- Constructor `system_error(int err, char const* file, int line)`
(error.cpp lines 52-55): stores the supplied code, no message. -/
def system_error.ofErrFileLine (err : Int) (file : String) (line : Int) :
    system_error :=
  ⟨none, err, file, line⟩

/-- Constructor `system_error(char const* file, int line)` (error.cpp
lines 39-40): delegates to the code-taking constructor with the ambient
`errno` value read at construction time. -/
def system_error.ofFileLine (errnoVal : Int) (file : String) (line : Int) :
    system_error :=
  system_error.ofErrFileLine errnoVal file line

/-- Constructor `system_error(std::string const& s, char const* file, int line)`
(error.cpp lines 42-44): delegates to the message-and-code constructor with
the ambient `errno` value read at construction time. -/
def system_error.ofMsgFileLine (s : String) (errnoVal : Int) (file : String)
    (line : Int) : system_error :=
  system_error.ofMsgErrFileLine s errnoVal file line

/-- The four overloaded construction paths of `system_error`. -/
inductive CtorArgs where
  | noCode (file : String) (line : Int)
  | msgOnly (s : String) (file : String) (line : Int)
  | msgAndCode (s : String) (err : Int) (file : String) (line : Int)
  | codeOnly (err : Int) (file : String) (line : Int)
deriving DecidableEq

/-- Dispatch of a `system_error` construction in an ambient state whose
last-error value is `errnoVal`: the no-code overloads read `errnoVal`, the
explicit-code overloads do not touch it. -/
def system_error.construct (errnoVal : Int) : CtorArgs → system_error
  | .noCode f l => system_error.ofFileLine errnoVal f l
  | .msgOnly s f l => system_error.ofMsgFileLine s errnoVal f l
  | .msgAndCode s e f l => system_error.ofMsgErrFileLine s e f l
  | .codeOnly e f l => system_error.ofErrFileLine e f l

/-- A propagating C++ exception, as classified by the `catch` clauses of
`safe_main` (error.cpp lines 110-123): a `dwarfs::system_error`, a
`dwarfs::error`, some other `std::exception` (carrying its rendered
description), or a value of any other type. -/
inductive Exc where
  | sysErr (e : system_error)
  | appErr (e : error)
  | stdExc (description : String)
  | other
deriving DecidableEq

/-- Whether a `catch (std::exception const&)` clause matches this
exception. `dwarfs::system_error` and `dwarfs::error` both derive from
`std::exception`. -/
def Exc.isStdException : Exc → Bool
  | .other => false
  | _ => true

/-- Modelled from the spec: the message rendering of
`std::generic_category()` for a given code (external standard-library
behaviour; the spec only requires that the description be rendered from
the code via the generic category mapping). -/
def genericCategoryMessage (code : Int) : String :=
  "generic error " ++ toString code

/-- The `what()` of a `dwarfs::system_error`: `std::system_error` renders
the optional message followed by the category's description of the code. -/
def system_error.what (e : system_error) : String :=
  match e.msg with
  | some s => s ++ ": " ++ genericCategoryMessage e.code
  | none => genericCategoryMessage e.code

/-- Modelled from the spec: `folly::exceptionStr` (external library)
renders an exception's type and description. -/
def exceptionStr : Exc → String
  | .sysErr e => "dwarfs::system_error: " ++ e.what
  | .appErr e => "dwarfs::error: " ++ e.msg
  | .stdExc d => d
  | .other => "<unknown exception>"

/-- `dump_exceptions` (error.cpp lines 57-66): with the exception tracer
compiled in, one line per currently-active exception as returned by
`folly::exception_tracer::getCurrentExceptions`; otherwise the fixed
fallback line. -/
def dump_exceptions (useExceptionTracer : Bool) (activeChain : List String) :
    List String :=
  if useExceptionTracer then activeChain else ["cannot dump exceptions"]

/-- `handle_nothrow` (error.cpp lines 68-73): one diagnostic line naming the
expression, the rendered current exception and the location, then
`::abort()`. The outcome type has no "returned" alternative, mirroring
that the function never returns. -/
inductive FatalOutcome where
  | abort
deriving DecidableEq

/-- `handle_nothrow` (error.cpp lines 68-73). -/
def handle_nothrow (expr : String) (currentExcStr : String) (file : String)
    (line : Int) : List String × FatalOutcome :=
  (["Expression `" ++ expr ++ "` threw `" ++ currentExcStr ++ "` in " ++
      file ++ "(" ++ toString line ++ ")"], .abort)

/-- `assertion_failed` (error.cpp lines 75-80): one diagnostic line, then
`::abort()`. -/
def assertion_failed (expr : String) (msg : String) (file : String)
    (line : Int) : List String × FatalOutcome :=
  (["Assertion `" ++ expr ++ "` failed in " ++ file ++ "(" ++
      toString line ++ "): " ++ msg], .abort)

/-- The environment `safe_main` runs in: platform flag, behaviour of each
setup step (`none` = the step succeeds, `some e` = it throws `e`), whether
`std::setlocale` succeeds, the exception-tracer build flag and the extra
(cause) exceptions the tracer would report beyond the one being handled. -/
structure SetupEnv where
  isWin32 : Bool
  installExc : Option Exc
  preferredLocaleExc : Option Exc
  classicLocaleExc : Option Exc
  setlocaleOk : Bool
  terminalExc : Option Exc
  useExceptionTracer : Bool
  extraChain : List String
deriving DecidableEq

/-- Which locale ended up applied by the fallback chain, if any. -/
inductive LocaleKind where
  | preferred
  | classic
deriving DecidableEq

/-- Result of the guarded locale-setup block (error.cpp lines 92-101):
warnings written, locale applied, and the exception propagating out of the
block (only possible when a locale step throws something that is not a
`std::exception`, since both `catch` clauses there catch
`std::exception const&`). -/
structure LocaleResult where
  warnings : List String
  applied : Option LocaleKind
  thrown : Option Exc
deriving DecidableEq

/-- The guarded locale-setup block of `safe_main` (error.cpp lines 92-101):
try the preferred locale; on a `std::exception` warn and try the classic
locale; on a further `std::exception` warn again and continue. -/
def localeStep (prefExc classicExc : Option Exc) : LocaleResult :=
  match prefExc with
  | none => ⟨[], some .preferred, none⟩
  | some e =>
    if e.isStdException then
      match classicExc with
      | none => ⟨["warning: failed to set user default locale"], some .classic, none⟩
      | some e2 =>
        if e2.isStdException then
          ⟨["warning: failed to set user default locale",
            "warning: also failed to set classic locale"], none, none⟩
        else
          ⟨["warning: failed to set user default locale"], none, some e2⟩
    else ⟨[], none, some e⟩

/-- The body of the outer `try` of `safe_main` (error.cpp lines 83-109):
install the fatal-signal handler (skipped on win32), run the locale
fallback chain, warn if `std::setlocale` fails, set up the terminal, then
invoke the entry point. Returns the lines written so far and either the
entry point's value or the exception that escaped the body. -/
def tryBody (env : SetupEnv) (fn : Except Exc Int) :
    List String × Except Exc Int :=
  match (if env.isWin32 then none else env.installExc) with
  | some e => ([], .error e)
  | none =>
    let lr := localeStep env.preferredLocaleExc env.classicLocaleExc
    match lr.thrown with
    | some e => (lr.warnings, .error e)
    | none =>
      let w2 := lr.warnings ++
        (if env.setlocaleOk then [] else ["warning: setlocale(LC_ALL, \"\") failed"])
      match env.terminalExc with
      | some e => (w2, .error e)
      | none => (w2, fn)

/-- Output of the `catch` clauses of `safe_main` (error.cpp lines 110-123)
for exception `e`: the `ERROR:` line (with `[file:line]` for the two
dwarfs types, without it for other `std::exception`s, and no `ERROR:` line
at all in the catch-all clause), followed by the `dump_exceptions` output.
The tracer's active chain starts with the exception being handled. -/
def catchOutput (env : SetupEnv) (e : Exc) : List String :=
  match e with
  | .sysErr se =>
    ("ERROR: " ++ exceptionStr e ++ " [" ++ se.file ++ ":" ++
        toString se.line ++ "]")
      :: dump_exceptions env.useExceptionTracer (exceptionStr e :: env.extraChain)
  | .appErr ae =>
    ("ERROR: " ++ exceptionStr e ++ " [" ++ ae.file ++ ":" ++
        toString ae.line ++ "]")
      :: dump_exceptions env.useExceptionTracer (exceptionStr e :: env.extraChain)
  | .stdExc _ =>
    ("ERROR: " ++ exceptionStr e)
      :: dump_exceptions env.useExceptionTracer (exceptionStr e :: env.extraChain)
  | .other =>
    dump_exceptions env.useExceptionTracer (exceptionStr e :: env.extraChain)

/-- `safe_main` (error.cpp lines 82-125): run the `try` body; a normal
return yields the entry point's value, a caught exception yields its
diagnostics followed by exit status 1. -/
def safe_main (env : SetupEnv) (fn : Except Exc Int) : List String × Int :=
  match tryBody env fn with
  | (out, .ok n) => (out, n)
  | (out, .error e) => (out ++ catchOutput env e, 1)

/-- The lines the setup steps write when no setup exception escapes. -/
def setupLines (env : SetupEnv) : List String :=
  (localeStep env.preferredLocaleExc env.classicLocaleExc).warnings ++
    (if env.setlocaleOk then [] else ["warning: setlocale(LC_ALL, \"\") failed"])

/-- Whether the setup steps let control reach the entry point: the signal
handler installation is skipped or succeeds, no exception escapes the
locale block, and terminal setup succeeds. -/
def SetupEnv.reachesEntry (env : SetupEnv) : Bool :=
  (env.isWin32 || env.installExc.isNone) &&
    (localeStep env.preferredLocaleExc env.classicLocaleExc).thrown.isNone &&
    env.terminalExc.isNone

/-- When setup reaches the entry point, the `try` body returns the setup
lines together with the entry point's outcome. -/
theorem tryBody_reaches (env : SetupEnv) (fn : Except Exc Int)
    (h : env.reachesEntry = true) :
    tryBody env fn = (setupLines env, fn) := by
  simp only [SetupEnv.reachesEntry, Bool.and_eq_true, Bool.or_eq_true,
    Option.isNone_iff_eq_none] at h
  obtain ⟨⟨h1, h2⟩, h3⟩ := h
  have hinst : (if env.isWin32 then none else env.installExc) = (none : Option Exc) := by
    rcases h1 with h1 | h1
    · simp [h1]
    · cases hw : env.isWin32 <;> simp [h1]
  simp only [tryBody, setupLines, hinst, h2, h3]

/-- When setup reaches the entry point and the entry point returns
normally, `safe_main` returns that value after the setup lines. -/
theorem safe_main_ok (env : SetupEnv) (n : Int)
    (h : env.reachesEntry = true) :
    safe_main env (.ok n) = (setupLines env, n) := by
  simp only [safe_main, tryBody_reaches env (.ok n) h]

/-- When setup reaches the entry point and the entry point throws,
`safe_main` appends the catch diagnostics and returns 1. -/
theorem safe_main_exc (env : SetupEnv) (e : Exc)
    (h : env.reachesEntry = true) :
    safe_main env (.error e) = (setupLines env ++ catchOutput env e, 1) := by
  simp only [safe_main, tryBody_reaches env (.error e) h]

/-- The locale block writes one of exactly three warning lists. -/
theorem localeStep_warnings_cases (p c : Option Exc) :
    (localeStep p c).warnings = [] ∨
    (localeStep p c).warnings = ["warning: failed to set user default locale"] ∨
    (localeStep p c).warnings =
      ["warning: failed to set user default locale",
       "warning: also failed to set classic locale"] := by
  rcases p with _ | e
  · exact .inl rfl
  · by_cases he : e.isStdException = true
    · rcases c with _ | e2
      · refine .inr (.inl ?_)
        simp [localeStep, he]
      · by_cases he2 : e2.isStdException = true
        · refine .inr (.inr ?_)
          simp [localeStep, he, he2]
        · refine .inr (.inl ?_)
          simp [localeStep, he, he2]
    · refine .inl ?_
      simp [localeStep, he]

/-- Every line the locale block writes is a warning line. -/
theorem localeStep_warnings_shape (p c : Option Exc) :
    ∀ l ∈ (localeStep p c).warnings, ∃ r, l = "warning: " ++ r := by
  intro l hl
  rcases localeStep_warnings_cases p c with h | h | h <;> rw [h] at hl
  · simp at hl
  · simp at hl
    refine ⟨"failed to set user default locale", ?_⟩
    rw [hl]
    rfl
  · simp at hl
    rcases hl with hl | hl
    · refine ⟨"failed to set user default locale", ?_⟩
      rw [hl]
      rfl
    · refine ⟨"also failed to set classic locale", ?_⟩
      rw [hl]
      rfl

/-- Every setup line is a warning line. -/
theorem setupLines_warning (env : SetupEnv) :
    ∀ l ∈ setupLines env, ∃ r, l = "warning: " ++ r := by
  intro l hl
  unfold setupLines at hl
  rw [List.mem_append] at hl
  rcases hl with hl | hl
  · exact localeStep_warnings_shape _ _ l hl
  · by_cases hs : env.setlocaleOk = true
    · simp [hs] at hl
    · rw [if_neg hs] at hl
      simp at hl
      refine ⟨"setlocale(LC_ALL, \"\") failed", ?_⟩
      rw [hl]
      rfl

/-- The constructor `system_error(std::string const&, int, char const*, int)`
in the `Except` embedding: its `noexcept` body performs no throwing
operation (member initialisation only), so it is a chain of `pure`s. -/
def system_error.ofMsgErrFileLineE (s : String) (err : Int) (file : String)
    (line : Int) : Except Exc system_error :=
  pure ⟨some s, err, file, line⟩

/-- The constructor `system_error(int, char const*, int)` in the `Except`
embedding. -/
def system_error.ofErrFileLineE (err : Int) (file : String) (line : Int) :
    Except Exc system_error :=
  pure ⟨none, err, file, line⟩

/-- The constructor `system_error(char const*, int)` in the `Except`
embedding: reads `errno` (non-throwing) and delegates. -/
def system_error.ofFileLineE (errnoVal : Int) (file : String) (line : Int) :
    Except Exc system_error :=
  system_error.ofErrFileLineE errnoVal file line

/-- The constructor `system_error(std::string const&, char const*, int)` in
the `Except` embedding: reads `errno` (non-throwing) and delegates. -/
def system_error.ofMsgFileLineE (s : String) (errnoVal : Int) (file : String)
    (line : Int) : Except Exc system_error :=
  system_error.ofMsgErrFileLineE s errnoVal file line

/-- Dispatch of the four construction paths in the `Except` embedding. -/
def system_error.constructE (errnoVal : Int) :
    CtorArgs → Except Exc system_error
  | .noCode f l => system_error.ofFileLineE errnoVal f l
  | .msgOnly s f l => system_error.ofMsgFileLineE s errnoVal f l
  | .msgAndCode s e f l => system_error.ofMsgErrFileLineE s e f l
  | .codeOnly e f l => system_error.ofErrFileLineE e f l

/-- `dump_exceptions` in the `Except` embedding: both branches only write
to `std::cerr` (which has exceptions disabled), so both are `pure`. -/
def dump_exceptionsE (useExceptionTracer : Bool) (activeChain : List String) :
    Except Exc (List String) :=
  if useExceptionTracer then pure activeChain
  else pure ["cannot dump exceptions"]

/-- C4: constructing a `system_error` without an explicit code (with or
without a message) stores exactly the ambient `errno` value passed at the
moment of construction; the model takes the ambient value as the
constructor's argument, so no later operation can alter the captured
code. -/
theorem system_error_captures_ambient_errno (errnoVal : Int) (s f : String)
    (l : Int) :
    (system_error.ofFileLine errnoVal f l).code = errnoVal ∧
    (system_error.ofMsgFileLine s errnoVal f l).code = errnoVal ∧
    (system_error.construct errnoVal (.noCode f l)).code = errnoVal ∧
    (system_error.construct errnoVal (.msgOnly s f l)).code = errnoVal :=
  ⟨rfl, rfl, rfl, rfl⟩

/-- C5: constructing a `system_error` with an explicit code stores exactly
the supplied value, and the constructed object is the same whatever the
ambient `errno` value is at construction time. -/
theorem system_error_explicit_code_stored (e1 e2 : Int) (s : String)
    (err : Int) (f : String) (l : Int) :
    (system_error.ofMsgErrFileLine s err f l).code = err ∧
    (system_error.ofErrFileLine err f l).code = err ∧
    system_error.construct e1 (.msgAndCode s err f l) =
      system_error.construct e2 (.msgAndCode s err f l) ∧
    system_error.construct e1 (.codeOnly err f l) =
      system_error.construct e2 (.codeOnly err f l) :=
  ⟨rfl, rfl, rfl, rfl⟩

/-- C9: no construction path of `system_error` throws: in the `Except`
embedding every path returns `.ok` of the constructed object, for all
argument values and all ambient `errno` values. -/
theorem system_error_ctors_no_throw (errnoVal : Int) (a : CtorArgs) :
    system_error.constructE errnoVal a =
      .ok (system_error.construct errnoVal a) := by
  cases a <;> rfl

/-- C8: `dump_exceptions` writes one line per active exception (exactly the
chain, so the same number of lines) when the tracer is compiled in, and
exactly the single fixed fallback line otherwise; in the `Except`
embedding it throws in neither case. -/
theorem dump_exceptions_two_modes (chain : List String) :
    dump_exceptions true chain = chain ∧
    (dump_exceptions true chain).length = chain.length ∧
    dump_exceptions false chain = ["cannot dump exceptions"] ∧
    dump_exceptionsE true chain = .ok (dump_exceptions true chain) ∧
    dump_exceptionsE false chain = .ok (dump_exceptions false chain) :=
  ⟨rfl, rfl, rfl, rfl, rfl⟩

/-- The assertion line decomposes into the spec's template with the
condition rendered between backquotes. -/
theorem assertion_line_form (c f msg : String) (l : Int) :
    "Assertion `" ++ c ++ "` failed in " ++ f ++ "(" ++ toString l ++
        "): " ++ msg =
      "Assertion " ++ ("`" ++ c ++ "`") ++ " failed in " ++ f ++ "(" ++
        toString l ++ "): " ++ msg := by
  simp only [String.append_assoc]
  rw [← String.append_assoc "Assertion " "`",
    ← String.append_assoc "`" " failed in "]
  rfl

/-- C6: `assertion_failed` writes exactly one diagnostic line, of the form
`Assertion <condition> failed in <file>(<line>): <message>` (the condition
rendered between backquotes), the line being a function of the inputs
alone, and then aborts the process — the outcome type has no alternative
in which control returns to the caller. -/
theorem assertion_failed_single_line_aborts (c msg f : String) (l : Int) :
    assertion_failed c msg f l =
      (["Assertion `" ++ c ++ "` failed in " ++ f ++ "(" ++ toString l ++
          "): " ++ msg], .abort) ∧
    (∃ rendered, (assertion_failed c msg f l).1 =
        ["Assertion " ++ rendered ++ " failed in " ++ f ++ "(" ++
          toString l ++ "): " ++ msg] ∧
      ∃ pre post, rendered = pre ++ c ++ post) ∧
    (assertion_failed c msg f l).1.length = 1 ∧
    (assertion_failed c msg f l).2 = .abort := by
  refine ⟨rfl, ⟨"`" ++ c ++ "`", ?_, "`", "`", rfl⟩, rfl, rfl⟩
  exact congrArg (fun s => [s]) (assertion_line_form c f msg l)

/-- The `what()` of a `system_error` always ends with the generic
category's rendering of its code. -/
theorem what_ends_with_category (se : system_error) :
    ∃ p, se.what = p ++ genericCategoryMessage se.code := by
  rcases hm : se.msg with _ | s
  · refine ⟨"", ?_⟩
    simp [system_error.what, hm, String.empty_append]
  · refine ⟨s ++ ": ", ?_⟩
    simp [system_error.what, hm, String.append_assoc]

/-- C2: when setup reaches the entry point and the entry point returns
normally with value n, `safe_main` returns exactly n, and no failure path
is taken: every line written is a setup warning line (in particular there
is no `ERROR:` line and no exception dump). -/
theorem safe_main_normal_return (env : SetupEnv) (n : Int)
    (h : env.reachesEntry = true) :
    (safe_main env (.ok n)).2 = n ∧
    ∀ l ∈ (safe_main env (.ok n)).1, ∃ r, l = "warning: " ++ r := by
  rw [safe_main_ok env n h]
  exact ⟨rfl, setupLines_warning env⟩

/-- C1: an entry point raising a `system_error` carrying code E and origin
(F, L) makes `safe_main` write the line
`ERROR: <description> [<file>:<line>]` — which contains the rendered
description of E and the literal substring `[F:L]` — then the
exception-chain dump, and return exit status 1. -/
theorem safe_main_system_error_diagnostic (env : SetupEnv)
    (se : system_error) (h : env.reachesEntry = true) :
    safe_main env (.error (.sysErr se)) =
      (setupLines env ++
        (("ERROR: " ++ exceptionStr (.sysErr se) ++ " [" ++ se.file ++
            ":" ++ toString se.line ++ "]") ::
          dump_exceptions env.useExceptionTracer
            (exceptionStr (.sysErr se) :: env.extraChain)), 1) ∧
    (∃ l ∈ (safe_main env (.error (.sysErr se))).1,
      (∃ pre post, l =
        pre ++ ("[" ++ se.file ++ ":" ++ toString se.line ++ "]") ++ post) ∧
      (∃ pre post, l = pre ++ genericCategoryMessage se.code ++ post)) := by
  have hs := safe_main_exc env (.sysErr se) h
  constructor
  · rw [hs]
    rfl
  · rw [hs]
    refine ⟨"ERROR: " ++ exceptionStr (.sysErr se) ++ " [" ++ se.file ++
      ":" ++ toString se.line ++ "]", ?_, ?_, ?_⟩
    · exact List.mem_append_right _ (List.mem_cons_self _ _)
    · refine ⟨"ERROR: " ++ exceptionStr (.sysErr se) ++ " ", "", ?_⟩
      simp only [String.append_assoc, String.append_empty]
      rw [← String.append_assoc " " "["]
      rfl
    · obtain ⟨p, hp⟩ := what_ends_with_category se
      refine ⟨"ERROR: " ++ "dwarfs::system_error: " ++ p,
        " [" ++ se.file ++ ":" ++ toString se.line ++ "]", ?_⟩
      have hx : exceptionStr (.sysErr se) =
          "dwarfs::system_error: " ++ se.what := rfl
      rw [hx, hp]
      simp only [String.append_assoc]

/-- C3: an entry point raising a failure outside the defined taxonomy is
handled by the catch-all clause: `safe_main` still returns 1, the output
is the setup lines followed by the exception dump, and at least one
diagnostic line beyond the setup lines is written (the dump is never
empty: either the active-exception lines, headed by the propagating
failure, or the fixed fallback line); no failure propagates — the call
returns an ordinary pair. -/
theorem safe_main_catch_all (env : SetupEnv) (h : env.reachesEntry = true) :
    (safe_main env (.error .other)).2 = 1 ∧
    (safe_main env (.error .other)).1 =
      setupLines env ++
        dump_exceptions env.useExceptionTracer
          (exceptionStr .other :: env.extraChain) ∧
    (setupLines env).length + 1 ≤ (safe_main env (.error .other)).1.length := by
  have hs := safe_main_exc env .other h
  rw [hs]
  refine ⟨rfl, rfl, ?_⟩
  simp only [List.length_append]
  have hd : 1 ≤ (catchOutput env .other).length := by
    show 1 ≤ (dump_exceptions env.useExceptionTracer
      (exceptionStr .other :: env.extraChain)).length
    cases ht : env.useExceptionTracer <;> simp [dump_exceptions]
  omega

/-- C7: the locale fallback chain: if setting the preferred locale fails
(locale failures are `std::exception`s), the warning
`failed to set user default locale` is written and the classic locale is
applied instead; if the classic locale also fails, the warning
`also failed to set classic locale` is written too and no locale is
(re)applied; in both cases the harness still invokes the entry point and
returns its value — locale failure is never fatal. -/
theorem safe_main_locale_fallback (env : SetupEnv) (d : String) (n : Int)
    (hI : env.isWin32 = true ∨ env.installExc = none)
    (hT : env.terminalExc = none)
    (hP : env.preferredLocaleExc = some (.stdExc d)) :
    (env.classicLocaleExc = none →
      (localeStep env.preferredLocaleExc env.classicLocaleExc).warnings =
        ["warning: failed to set user default locale"] ∧
      (localeStep env.preferredLocaleExc env.classicLocaleExc).applied =
        some .classic ∧
      (safe_main env (.ok n)).2 = n) ∧
    (∀ d2, env.classicLocaleExc = some (.stdExc d2) →
      (localeStep env.preferredLocaleExc env.classicLocaleExc).warnings =
        ["warning: failed to set user default locale",
         "warning: also failed to set classic locale"] ∧
      (localeStep env.preferredLocaleExc env.classicLocaleExc).applied =
        none ∧
      (safe_main env (.ok n)).2 = n) := by
  constructor
  · intro hC
    have hl : localeStep env.preferredLocaleExc env.classicLocaleExc =
        ⟨["warning: failed to set user default locale"],
          some .classic, none⟩ := by
      rw [hP, hC]
      rfl
    have hre : env.reachesEntry = true := by
      simp only [SetupEnv.reachesEntry, hl, hT]
      rcases hI with h1 | h1 <;> simp [h1]
    rw [hl]
    refine ⟨rfl, rfl, ?_⟩
    rw [safe_main_ok env n hre]
  · intro d2 hC
    have hl : localeStep env.preferredLocaleExc env.classicLocaleExc =
        ⟨["warning: failed to set user default locale",
          "warning: also failed to set classic locale"], none, none⟩ := by
      rw [hP, hC]
      rfl
    have hre : env.reachesEntry = true := by
      simp only [SetupEnv.reachesEntry, hl, hT]
      rcases hI with h1 | h1 <;> simp [h1]
    rw [hl]
    refine ⟨rfl, rfl, ?_⟩
    rw [safe_main_ok env n hre]

/-- C10: a failure raised by `safe_main`'s own setup steps — fatal-signal
handler installation, a locale failure not caught by the locale block's
`std::exception` handlers, or terminal setup — is caught at the same
top-level boundary as an application failure: `safe_main` writes the lines
produced so far followed by that exception's catch diagnostics (the
`ERROR:` line when applicable, then the exception-chain dump), returns 1,
and the entry point is never invoked: the result is the same for every
entry point. -/
theorem safe_main_setup_failure_caught (env : SetupEnv) (e : Exc)
    (fn fn2 : Except Exc Int) :
    (env.isWin32 = false → env.installExc = some e →
      safe_main env fn = (catchOutput env e, 1) ∧
      safe_main env fn = safe_main env fn2) ∧
    ((env.isWin32 = true ∨ env.installExc = none) →
      env.preferredLocaleExc = some e → e.isStdException = false →
      safe_main env fn = (catchOutput env e, 1) ∧
      safe_main env fn = safe_main env fn2) ∧
    ((env.isWin32 = true ∨ env.installExc = none) →
      (localeStep env.preferredLocaleExc env.classicLocaleExc).thrown =
        none →
      env.terminalExc = some e →
      safe_main env fn = (setupLines env ++ catchOutput env e, 1) ∧
      safe_main env fn = safe_main env fn2) := by
  refine ⟨?_, ?_, ?_⟩
  · intro hW hI
    have hb : ∀ g : Except Exc Int, tryBody env g = ([], .error e) := by
      intro g
      simp [tryBody, hW, hI]
    have h1 : ∀ g : Except Exc Int,
        safe_main env g = (catchOutput env e, 1) := by
      intro g
      simp only [safe_main, hb g]
      rfl
    exact ⟨h1 fn, (h1 fn).trans (h1 fn2).symm⟩
  · intro hI hP he
    have hsc : (if env.isWin32 then none else env.installExc) =
        (none : Option Exc) := by
      rcases hI with h1 | h1
      · simp [h1]
      · cases hw : env.isWin32 <;> simp [h1]
    have hl : localeStep env.preferredLocaleExc env.classicLocaleExc =
        ⟨[], none, some e⟩ := by
      rw [hP]
      simp [localeStep, he]
    have hb : ∀ g : Except Exc Int, tryBody env g = ([], .error e) := by
      intro g
      simp only [tryBody, hsc, hl]
    have h1 : ∀ g : Except Exc Int,
        safe_main env g = (catchOutput env e, 1) := by
      intro g
      simp only [safe_main, hb g]
      rfl
    exact ⟨h1 fn, (h1 fn).trans (h1 fn2).symm⟩
  · intro hI hL hT
    have hsc : (if env.isWin32 then none else env.installExc) =
        (none : Option Exc) := by
      rcases hI with h1 | h1
      · simp [h1]
      · cases hw : env.isWin32 <;> simp [h1]
    have hb : ∀ g : Except Exc Int,
        tryBody env g = (setupLines env, .error e) := by
      intro g
      simp only [tryBody, hsc, hL, hT, setupLines]
    have h1 : ∀ g : Except Exc Int,
        safe_main env g = (setupLines env ++ catchOutput env e, 1) := by
      intro g
      simp only [safe_main, hb g]
    exact ⟨h1 fn, (h1 fn).trans (h1 fn2).symm⟩

/-- A benign setup environment: non-win32, every setup step succeeds, no
exception tracer compiled in. -/
def envBenign : SetupEnv := ⟨false, none, none, none, true, none, false, []⟩

/-- A concrete `system_error` for evaluating the theorems: message
`open failed`, code 2, origin `main.cpp:10`. -/
def seW : system_error := ⟨some "open failed", 2, "main.cpp", 10⟩

/-- An environment whose preferred-locale step fails with a
`std::exception` while everything else succeeds. -/
def envLocaleFail : SetupEnv :=
  ⟨false, none, some (.stdExc "bad locale"), none, true, none, false, []⟩

/-- An environment whose signal-handler installation throws an
out-of-taxonomy exception. -/
def envInstallFail : SetupEnv :=
  ⟨false, some .other, none, none, true, none, false, []⟩

/-- Concrete evaluation for the `system_error` diagnostic: in the benign
environment the whole output and exit status are computed literally. -/
theorem safe_main_system_error_diagnostic_witness :
    envBenign.reachesEntry = true ∧
    safe_main envBenign (.error (.sysErr seW)) =
      (["ERROR: dwarfs::system_error: open failed: generic error 2 [main.cpp:10]",
        "cannot dump exceptions"], 1) := by
  refine ⟨by decide, ?_⟩
  have h := (safe_main_system_error_diagnostic envBenign seW (by decide)).1
  rw [h]
  rfl

/-- Concrete evaluation for the normal-return path at the value 42. -/
theorem safe_main_normal_return_witness :
    envBenign.reachesEntry = true ∧
    ((safe_main envBenign (.ok 42)).2 = 42 ∧
      ∀ l ∈ (safe_main envBenign (.ok 42)).1, ∃ r, l = "warning: " ++ r) :=
  ⟨by decide, safe_main_normal_return envBenign 42 (by decide)⟩

/-- Concrete evaluation for the catch-all path. -/
theorem safe_main_catch_all_witness :
    envBenign.reachesEntry = true ∧
    ((safe_main envBenign (.error .other)).2 = 1 ∧
      (safe_main envBenign (.error .other)).1 =
        setupLines envBenign ++
          dump_exceptions envBenign.useExceptionTracer
            (exceptionStr .other :: envBenign.extraChain) ∧
      (setupLines envBenign).length + 1 ≤
        (safe_main envBenign (.error .other)).1.length) :=
  ⟨by decide, safe_main_catch_all envBenign (by decide)⟩

/-- Concrete evaluation for the locale fallback: the preferred locale
fails, the warning is written, the classic locale is applied, the entry
point still runs. -/
theorem safe_main_locale_fallback_witness :
    envLocaleFail.terminalExc = none ∧
    envLocaleFail.preferredLocaleExc = some (.stdExc "bad locale") ∧
    envLocaleFail.classicLocaleExc = none ∧
    ((localeStep envLocaleFail.preferredLocaleExc
        envLocaleFail.classicLocaleExc).warnings =
      ["warning: failed to set user default locale"] ∧
     (localeStep envLocaleFail.preferredLocaleExc
        envLocaleFail.classicLocaleExc).applied = some .classic ∧
     (safe_main envLocaleFail (.ok 7)).2 = 7) := by
  refine ⟨rfl, rfl, rfl, ?_⟩
  exact (safe_main_locale_fallback envLocaleFail "bad locale" 7
    (Or.inr rfl) rfl rfl).1 rfl

/-- Concrete evaluation for a setup failure: installation throws an
out-of-taxonomy exception; `safe_main` returns 1 with the catch
diagnostics and ignores the entry point. -/
theorem safe_main_setup_failure_caught_witness :
    envInstallFail.isWin32 = false ∧
    envInstallFail.installExc = some .other ∧
    (safe_main envInstallFail (.ok 5) =
      (catchOutput envInstallFail .other, 1) ∧
     safe_main envInstallFail (.ok 5) = safe_main envInstallFail (.ok 99)) := by
  refine ⟨rfl, rfl, ?_⟩
  exact (safe_main_setup_failure_caught envInstallFail .other
    (.ok 5) (.ok 99)).1 rfl rfl

end Dwarfs
